import Mathlib

/-!
Verification of the brick-breaker simulation core in `src/main.js`.

The embedding is over exact rationals: every numeric field of the game
entities is a `ℚ`, the serve direction drawn from `Math.random` is an
explicit `Bool` parameter, and the event handlers and the per-frame
`update` become pure state transformers over a `GameState` record.
-/

set_option maxHeartbeats 1000000

/-- Playfield width in simulation units (`GAME_W` in main.js). -/
def GAME_W : ℚ := 360

/-- Playfield height in simulation units (`GAME_H` in main.js). -/
def GAME_H : ℚ := 640

/-- Baseline horizontal serve speed (`BALL_SPEED_X`). -/
def BALL_SPEED_X : ℚ := 180

/-- Upward serve speed (`BALL_SPEED_Y`). -/
def BALL_SPEED_Y : ℚ := 260

/-- Maximal time step handed to `update` (`MAX_DT`). -/
def MAX_DT : ℚ := 1/30

/-- Paddle easing constant (`PADDLE_SMOOTHING`). -/
def PADDLE_SMOOTHING : ℚ := 20

/-- Numeric clamp, `Math.max(lo, Math.min(hi, v))` as in `clamp` of main.js. -/
def clamp (v lo hi : ℚ) : ℚ := max lo (min hi v)

/-- The ball record of main.js: centre, velocity and radius. -/
structure Ball where
  x : ℚ
  y : ℚ
  vx : ℚ
  vy : ℚ
  r : ℚ
deriving DecidableEq

/-- An axis-aligned rectangle (paddle and bricks are passed in this shape). -/
structure Rect where
  x : ℚ
  y : ℚ
  w : ℚ
  h : ℚ
deriving DecidableEq

/-- Squared distance from the ball centre to the closest point of a
rectangle, the quantity `dist2` computed at the top of
`reflectBallFromRect`. -/
def dist2 (b : Ball) (rect : Rect) : ℚ :=
  let dx := b.x - clamp b.x rect.x (rect.x + rect.w)
  let dy := b.y - clamp b.y rect.y (rect.y + rect.h)
  dx * dx + dy * dy

/-- Circle-vs-rectangle resolution, `reflectBallFromRect` of main.js
(the spec calls it `resolveCircleRect`): returns whether a collision
occurred together with the corrected ball. -/
def reflectBallFromRect (b : Ball) (rect : Rect) : Bool × Ball :=
  let closX := clamp b.x rect.x (rect.x + rect.w)
  let closY := clamp b.y rect.y (rect.y + rect.h)
  let dx := b.x - closX
  let dy := b.y - closY
  let d2 := dx * dx + dy * dy
  if d2 > b.r * b.r then (false, b)
  else if |dx| = 0 ∧ |dy| = 0 then
    let eLeft := |b.x - rect.x|
    let eRight := |rect.x + rect.w - b.x|
    let eTop := |b.y - rect.y|
    let eBottom := |rect.y + rect.h - b.y|
    let minEdge := min (min (min eLeft eRight) eTop) eBottom
    if minEdge = eLeft then
      (true, { b with x := rect.x - b.r - 1/2, vx := -|b.vx| })
    else if minEdge = eRight then
      (true, { b with x := rect.x + rect.w + b.r + 1/2, vx := |b.vx| })
    else if minEdge = eTop then
      (true, { b with y := rect.y - b.r - 1/2, vy := -|b.vy| })
    else
      (true, { b with y := rect.y + rect.h + b.r + 1/2, vy := |b.vy| })
  else
    let overlapX := b.r - |dx|
    let overlapY := b.r - |dy|
    if overlapX < overlapY then
      if dx > 0 then (true, { b with x := b.x + (overlapX + 1/2), vx := -b.vx })
      else (true, { b with x := b.x - (overlapX + 1/2), vx := -b.vx })
    else
      if dy > 0 then (true, { b with y := b.y + (overlapY + 1/2), vy := -b.vy })
      else (true, { b with y := b.y - (overlapY + 1/2), vy := -b.vy })

/-- The paddle record: position, size and the input-driven target. -/
structure Paddle where
  x : ℚ
  y : ℚ
  w : ℚ
  h : ℚ
  targetX : ℚ
deriving DecidableEq

/-- A brick: rectangle data plus the `active` flag. -/
structure Brick where
  x : ℚ
  y : ℚ
  w : ℚ
  h : ℚ
  active : Bool
deriving DecidableEq

/-- View the paddle as the rectangle handed to `reflectBallFromRect`. -/
def Paddle.toRect (p : Paddle) : Rect := ⟨p.x, p.y, p.w, p.h⟩

/-- View a brick as the rectangle handed to `reflectBallFromRect`. -/
def Brick.toRect (br : Brick) : Rect := ⟨br.x, br.y, br.w, br.h⟩

/-- The game-flow mode (`state` variable of main.js). -/
inductive Mode where
  | menu
  | playing
  | paused
  | win
  | lose
deriving DecidableEq

/-- Pointer-input bookkeeping (the `input` object of main.js). -/
structure InputState where
  pointerActive : Bool
  pointerX : ℚ
  grabOffset : ℚ
deriving DecidableEq

/-- The whole mutable state of main.js gathered into one record. -/
structure GameState where
  mode : Mode
  score : ℕ
  lives : ℤ
  paddle : Paddle
  ball : Ball
  bricks : List Brick
  input : InputState
deriving DecidableEq

/-- Serve helper `resetBallOnPaddle`: rest the ball on the paddle and give
it the fixed serve velocity; `dir` stands for the `Math.random() > 0.5`
draw choosing the horizontal direction. -/
def resetBallOnPaddle (dir : Bool) (p : Paddle) (b : Ball) : Ball :=
  { b with
    x := p.x + p.w / 2
    y := p.y - b.r - 1
    vx := BALL_SPEED_X * (if dir then 1 else -1)
    vy := -BALL_SPEED_Y }

/-- Width of one brick, `(GAME_W - 20) / cols - 4` with 8 columns. -/
def brickW : ℚ := (GAME_W - 20) / 8 - 4

/-- The 5-by-8 brick grid generated by `initGame`, in the push order of
the source: rows outermost (row 0 first), columns left to right. -/
def initBricks : List Brick :=
  (List.range 5).flatMap fun row =>
    (List.range 8).map fun col =>
      { x := 10 + (col : ℚ) * (brickW + 4)
        y := 80 + (row : ℚ) * (20 + 4)
        w := brickW
        h := 20
        active := true }

/-- Function `initGame`: rebuild the brick grid, recentre the paddle and serve.
Score and lives are deliberately untouched. -/
def initGame (dir : Bool) (s : GameState) : GameState :=
  let px := GAME_W / 2 - s.paddle.w / 2
  let paddle := { s.paddle with x := px, targetX := px }
  { s with
    bricks := initBricks
    paddle := paddle
    ball := resetBallOnPaddle dir paddle s.ball }

/-- Function `startNewGame`: reset score and lives, enter `playing`, re-init. -/
def startNewGame (dir : Bool) (s : GameState) : GameState :=
  initGame dir { s with score := 0, lives := 3, mode := Mode.playing }

/-- Wall step of `checkCollisions`: the three sequential wall `if`s. -/
def wallPhase (b : Ball) : Ball :=
  let b1 := if b.x - b.r ≤ 0 then { b with x := b.r, vx := |b.vx| } else b
  let b2 := if b1.x + b1.r ≥ GAME_W then { b1 with x := GAME_W - b1.r, vx := -|b1.vx| } else b1
  if b2.y - b2.r ≤ 0 then { b2 with y := b2.r, vy := |b2.vy| } else b2

/-- Paddle step of `checkCollisions`: generic reflection followed by the
forced upward `vy` and the position-based angle override of `vx`. -/
def paddlePhase (p : Paddle) (b : Ball) : Ball :=
  let res := reflectBallFromRect b p.toRect
  if res.1 then
    let b1 := { res.2 with vy := -|res.2.vy| }
    { b1 with vx := clamp ((b1.x - p.x) / p.w - 1/2) (-(1/2)) (1/2) * 420 }
  else b

/-- Brick loop of `checkCollisions`: scan the list in order, deactivate
the first active brick the reflection reports as hit, and stop (the
`break`). Returns the updated bricks, the updated ball, and whether a
brick was destroyed. -/
def brickPhase : List Brick → Ball → List Brick × Ball × Bool
  | [], b => ([], b, false)
  | br :: rest, b =>
    if br.active && (reflectBallFromRect b br.toRect).1 then
      ({ br with active := false } :: rest, (reflectBallFromRect b br.toRect).2, true)
    else
      let res := brickPhase rest b
      (br :: res.1, res.2.1, res.2.2)

/-- State after the wall, paddle and brick steps of `checkCollisions`,
including the score reward for a destroyed brick. -/
def collidePhase (s : GameState) : GameState :=
  let b2 := paddlePhase s.paddle (wallPhase s.ball)
  let res := brickPhase s.bricks b2
  { s with
    ball := res.2.1
    bricks := res.1
    score := s.score + (if res.2.2 then 10 else 0) }

/-- The out-of-bounds test of `checkCollisions`: the ball's top edge is
below the playfield's bottom edge. -/
def ballOut (s : GameState) : Prop := s.ball.y - s.ball.r > GAME_H

instance (s : GameState) : Decidable (ballOut s) := by
  unfold ballOut; infer_instance

/-- Out-of-bounds step of `checkCollisions`: decrement lives, and either
enter `lose` or respawn the ball on the paddle. -/
def oobPhase (dir : Bool) (s : GameState) : GameState :=
  if ballOut s then
    let lives := s.lives - 1
    if lives ≤ 0 then { s with lives := lives, mode := Mode.lose }
    else { s with lives := lives, ball := resetBallOnPaddle dir s.paddle s.ball }
  else s

/-- The win test `bricks.every(b => !b.active)` of `checkCollisions`. -/
def allCleared (l : List Brick) : Bool := l.all fun b => !b.active

/-- Win step of `checkCollisions`: enter `win` when no brick is active. -/
def winPhase (s : GameState) : GameState :=
  if allCleared s.bricks then { s with mode := Mode.win } else s

/-- Function `checkCollisions` of main.js: walls, paddle and bricks, then the
out-of-bounds check, then the win check, in source order. -/
def checkCollisions (dir : Bool) (s : GameState) : GameState :=
  winPhase (oobPhase dir (collidePhase s))

/-- The movement half of `update`: paddle easing toward its target and
the Euler step of the ball. -/
def integrate (dt : ℚ) (s : GameState) : GameState :=
  { s with
    paddle := { s.paddle with
      x := s.paddle.x + (s.paddle.targetX - s.paddle.x) * min 1 (dt * PADDLE_SMOOTHING) }
    ball := { s.ball with
      x := s.ball.x + s.ball.vx * dt
      y := s.ball.y + s.ball.vy * dt } }

/-- Function `update` of main.js: a no-op outside `playing`, otherwise movement
followed by `checkCollisions`. -/
def update (dir : Bool) (dt : ℚ) (s : GameState) : GameState :=
  if s.mode = Mode.playing then checkCollisions dir (integrate dt s) else s

/-- Run a list of ticks; each entry carries the serve-direction draw and
the (pre-clamped) time step of that frame. -/
def runTicks : List (Bool × ℚ) → GameState → GameState
  | [], s => s
  | (d, dt) :: l, s => runTicks l (update d dt s)

/-- The `pointerdown` handler: a start trigger in menu/win/lose, the
start of a paddle drag while playing.  `gx` is the pointer x already
mapped to game coordinates by `screenToGame`. -/
def pointerdown (dir : Bool) (gx : ℚ) (s : GameState) : GameState :=
  if s.mode = Mode.menu ∨ s.mode = Mode.win ∨ s.mode = Mode.lose then
    startNewGame dir s
  else if s.mode = Mode.playing then
    { s with input := { pointerActive := true, pointerX := gx,
                        grabOffset := gx - (s.paddle.x + s.paddle.w / 2) } }
  else s

/-- The `pointermove` handler: while dragging, retarget the paddle to the
pointer (respecting the grab offset), clamped to the playfield. -/
def pointermove (gx : ℚ) (s : GameState) : GameState :=
  if s.mode = Mode.playing ∧ s.input.pointerActive then
    let tx := gx - s.input.grabOffset - s.paddle.w / 2
    { s with
      input := { s.input with pointerX := gx }
      paddle := { s.paddle with targetX := clamp tx 0 (GAME_W - s.paddle.w) } }
  else s

/-- The `pointerup` handler (the `pointercancel` handler is identical):
stop tracking the drag. -/
def pointerup (s : GameState) : GameState :=
  { s with input := { s.input with pointerActive := false } }

/-- The logical keys the `keydown` handler distinguishes. -/
inductive Key where
  | space
  | enter
  | arrowLeft
  | arrowRight
  | other
deriving DecidableEq

/-- The `keydown` handler: start trigger in menu/win/lose, ±10 nudges of
the paddle target while playing. -/
def keydown (dir : Bool) (k : Key) (s : GameState) : GameState :=
  if s.mode = Mode.menu ∨ s.mode = Mode.win ∨ s.mode = Mode.lose then
    match k with
    | Key.space => startNewGame dir s
    | Key.enter => startNewGame dir s
    | _ => s
  else if s.mode = Mode.playing then
    match k with
    | Key.arrowLeft =>
        { s with paddle := { s.paddle with
            targetX := clamp (s.paddle.targetX - 10) 0 (GAME_W - s.paddle.w) } }
    | Key.arrowRight =>
        { s with paddle := { s.paddle with
            targetX := clamp (s.paddle.targetX + 10) 0 (GAME_W - s.paddle.w) } }
    | _ => s
  else s

/-- The module-level initial state of main.js (before any event). -/
def initialState : GameState :=
  { mode := Mode.menu
    score := 0
    lives := 3
    paddle := { x := GAME_W / 2 - 30, y := GAME_H - 40, w := 60, h := 10,
                targetX := GAME_W / 2 - 30 }
    ball := { x := GAME_W / 2, y := GAME_H - 60, vx := 160, vy := -240, r := 6 }
    bricks := []
    input := { pointerActive := false, pointerX := 0, grabOffset := 0 } }

/-- All states the game can actually be in: the initial state, closed
under ticks (with the frame loop's dt clamp) and the input handlers. -/
inductive Reachable : GameState → Prop where
  | init : Reachable initialState
  | tick (s : GameState) (dir : Bool) (dt : ℚ) (hs : Reachable s)
      (h0 : 0 ≤ dt) (h1 : dt ≤ MAX_DT) : Reachable (update dir dt s)
  | pdown (s : GameState) (dir : Bool) (gx : ℚ) (hs : Reachable s) :
      Reachable (pointerdown dir gx s)
  | pmove (s : GameState) (gx : ℚ) (hs : Reachable s) :
      Reachable (pointermove gx s)
  | pup (s : GameState) (hs : Reachable s) : Reachable (pointerup s)
  | key (s : GameState) (dir : Bool) (k : Key) (hs : Reachable s) :
      Reachable (keydown dir k s)

/-- Geometric well-formedness of a brick list: nonnegative extents and
lying far enough above the bottom edge that a reflection off a brick can
never leave the ball out of bounds.  Every grid `initGame` builds
satisfies it. -/
def bricksLow (l : List Brick) : Prop :=
  ∀ br ∈ l, 0 ≤ br.w ∧ 0 ≤ br.h ∧ br.y + br.h + 1/2 ≤ GAME_H

/-- The inductive invariant of the game: paddle inside the playfield,
constant paddle size and ball radius, and the mode/lives/bricks facts
the win-lose claims rest on. -/
def GameInv (s : GameState) : Prop :=
  0 ≤ s.paddle.x ∧ s.paddle.x + s.paddle.w ≤ GAME_W ∧
  0 ≤ s.paddle.targetX ∧ s.paddle.targetX + s.paddle.w ≤ GAME_W ∧
  s.paddle.w = 60 ∧ s.paddle.h = 10 ∧
  s.ball.r = 6 ∧
  (s.mode = Mode.playing →
    1 ≤ s.lives ∧ s.bricks.length = 40 ∧
    allCleared s.bricks = false ∧ bricksLow s.bricks) ∧
  (s.mode = Mode.win → allCleared s.bricks = true) ∧
  (s.mode = Mode.lose → s.lives = 0 ∧ allCleared s.bricks = false)

/-- Sample playing state whose ball has already fallen past the bottom
edge, used as concrete input for the out-of-bounds claims. -/
def sampleOut : GameState :=
  ⟨Mode.playing, 7, 3, ⟨150, 600, 60, 10, 150⟩, ⟨100, 700, 0, 50, 6⟩,
    [⟨10, 80, 30, 20, true⟩], ⟨false, 0, 0⟩⟩

/-- The same falling-ball state on its last life. -/
def sampleOutLast : GameState := { sampleOut with lives := 1 }

/-- Sample playing state whose ball overlaps its single brick, so the
tick's brick phase reports a hit and pays the score reward. -/
def sampleHit : GameState :=
  ⟨Mode.playing, 3, 3, ⟨150, 600, 60, 10, 150⟩, ⟨25, 105, 0, -10, 6⟩,
    [⟨10, 80, 30, 20, true⟩], ⟨false, 0, 0⟩⟩

/-- Scenario A of the spec: ball at (180, 600) with velocity (0, 260)
directly above the paddle spanning x 150..210, y 600..610. -/
def scenarioA : GameState :=
  ⟨Mode.playing, 0, 3, ⟨150, 600, 60, 10, 150⟩, ⟨180, 600, 0, 260, 6⟩,
    [⟨10, 80, 77/2, 20, true⟩], ⟨false, 0, 0⟩⟩

section ClampLemmas

variable {v lo hi : ℚ}

lemma lo_le_clamp : lo ≤ clamp v lo hi := le_max_left _ _

lemma clamp_le_hi (h : lo ≤ hi) : clamp v lo hi ≤ hi :=
  max_le h (min_le_left _ _)

lemma clamp_of_le_lo (h : v ≤ lo) (hlh : lo ≤ hi) : clamp v lo hi = lo := by
  unfold clamp
  rw [min_eq_right (h.trans hlh), max_eq_left h]

lemma clamp_of_hi_le (h : hi ≤ v) (hlh : lo ≤ hi) : clamp v lo hi = hi := by
  unfold clamp
  rw [min_eq_left h, max_eq_right hlh]

lemma clamp_of_mem (h1 : lo ≤ v) (h2 : v ≤ hi) : clamp v lo hi = v := by
  unfold clamp
  rw [min_eq_right h2, max_eq_right h1]

lemma sub_clamp_pos (h : 0 < v - clamp v lo hi) (hlh : lo ≤ hi) :
    clamp v lo hi = hi ∧ hi < v := by
  by_cases hv : v ≤ hi
  · exfalso
    have : v ≤ clamp v lo hi := by
      unfold clamp
      rw [min_eq_right hv]
      exact le_max_right _ _
    linarith
  · push_neg at hv
    exact ⟨clamp_of_hi_le hv.le hlh, hv⟩

lemma sub_clamp_neg (h : v - clamp v lo hi < 0) (hlh : lo ≤ hi) :
    clamp v lo hi = lo ∧ v < lo := by
  by_cases hv : lo ≤ v
  · exfalso
    have : clamp v lo hi ≤ v := by
      by_cases hv2 : v ≤ hi
      · rw [clamp_of_mem hv hv2]
      · push_neg at hv2
        rw [clamp_of_hi_le hv2.le hlh]; exact hv2.le
    linarith
  · push_neg at hv
    exact ⟨clamp_of_le_lo hv.le hlh, hv⟩

lemma sub_clamp_zero (h : v - clamp v lo hi = 0) : lo ≤ v ∧ (lo ≤ hi → v ≤ hi) := by
  have hc : clamp v lo hi = v := by linarith
  constructor
  · rw [← hc]; exact lo_le_clamp
  · intro hlh; rw [← hc]; exact clamp_le_hi hlh

end ClampLemmas

lemma reflect_miss {b : Ball} {rect : Rect} (h : b.r * b.r < dist2 b rect) :
    reflectBallFromRect b rect = (false, b) := by
  simp only [dist2] at h
  simp only [reflectBallFromRect]
  rw [if_pos h]

lemma overlap_of_hit {b : Ball} {rect : Rect}
    (h : (reflectBallFromRect b rect).1 = true) : dist2 b rect ≤ b.r * b.r := by
  by_contra hc
  push_neg at hc
  rw [reflect_miss hc] at h
  simp at h

lemma reflect_r (b : Ball) (rect : Rect) :
    (reflectBallFromRect b rect).2.r = b.r := by
  simp only [reflectBallFromRect]
  split_ifs <;> rfl

lemma abs_le_of_mul_self_le {a r : ℚ} (hr : 0 ≤ r) (h : a * a ≤ r * r) : |a| ≤ r := by
  nlinarith [abs_nonneg a, abs_mul_abs_self a]

/-- Master description of a reported hit: the call returns `true`, the
corrected ball is separated from the rectangle again, its new `y` stays
within radius-plus-push of the rectangle's bottom edge, and exactly one
axis is resolved (position and velocity of the other axis untouched),
the resolved velocity component being either negated (normal case) or
forced outward via `±|v|` (degenerate case). -/
lemma reflect_hit_master (b : Ball) (rect : Rect)
    (hr : 0 ≤ b.r) (hw : 0 ≤ rect.w) (hh : 0 ≤ rect.h)
    (hov : dist2 b rect ≤ b.r * b.r) :
    (reflectBallFromRect b rect).1 = true ∧
    b.r * b.r ≤ dist2 (reflectBallFromRect b rect).2 rect ∧
    (reflectBallFromRect b rect).2.y ≤ rect.y + rect.h + b.r + 1/2 ∧
    (((reflectBallFromRect b rect).2.y = b.y ∧ (reflectBallFromRect b rect).2.vy = b.vy ∧
        ((reflectBallFromRect b rect).2.vx = -b.vx ∨ (reflectBallFromRect b rect).2.vx = -|b.vx| ∨
          (reflectBallFromRect b rect).2.vx = |b.vx|)) ∨
      ((reflectBallFromRect b rect).2.x = b.x ∧ (reflectBallFromRect b rect).2.vx = b.vx ∧
        ((reflectBallFromRect b rect).2.vy = -b.vy ∨ (reflectBallFromRect b rect).2.vy = -|b.vy| ∨
          (reflectBallFromRect b rect).2.vy = |b.vy|))) := by
  have hlx : rect.x ≤ rect.x + rect.w := by linarith
  have hly : rect.y ≤ rect.y + rect.h := by linarith
  have hcyle := clamp_le_hi (v := b.y) hly
  simp only [dist2] at hov
  have hdyabs : |b.y - clamp b.y rect.y (rect.y + rect.h)| ≤ b.r :=
    abs_le_of_mul_self_le hr
      (by nlinarith [mul_self_nonneg (b.x - clamp b.x rect.x (rect.x + rect.w))])
  have hdxabs : |b.x - clamp b.x rect.x (rect.x + rect.w)| ≤ b.r :=
    abs_le_of_mul_self_le hr
      (by nlinarith [mul_self_nonneg (b.y - clamp b.y rect.y (rect.y + rect.h))])
  simp only [reflectBallFromRect, dist2]
  split_ifs with h1 h2 h3 h4 h5 h6 h7 h8
  -- miss branch: contradicts the overlap hypothesis
  · exact absurd h1 (not_lt.mpr hov)
  -- degenerate, pushed out through the left edge
  · obtain ⟨h2x, h2y⟩ := h2
    rw [abs_eq_zero] at h2x h2y
    refine ⟨rfl, ?_, ?_, Or.inl ⟨rfl, rfl, Or.inr (Or.inl rfl)⟩⟩
    · dsimp only
      rw [clamp_of_le_lo (by linarith) hlx, h2y]
      nlinarith [hr]
    · dsimp only
      have := (sub_clamp_zero h2y).2 hly
      linarith
  -- degenerate, pushed out through the right edge
  · obtain ⟨h2x, h2y⟩ := h2
    rw [abs_eq_zero] at h2x h2y
    refine ⟨rfl, ?_, ?_, Or.inl ⟨rfl, rfl, Or.inr (Or.inr rfl)⟩⟩
    · dsimp only
      rw [clamp_of_hi_le (by linarith) hlx, h2y]
      nlinarith [hr]
    · dsimp only
      have := (sub_clamp_zero h2y).2 hly
      linarith
  -- degenerate, pushed out through the top edge
  · obtain ⟨h2x, h2y⟩ := h2
    rw [abs_eq_zero] at h2x h2y
    refine ⟨rfl, ?_, ?_, Or.inr ⟨rfl, rfl, Or.inr (Or.inl rfl)⟩⟩
    · dsimp only
      rw [clamp_of_le_lo (by linarith) hly, h2x]
      nlinarith [hr]
    · dsimp only
      linarith
  -- degenerate, pushed out through the bottom edge
  · obtain ⟨h2x, h2y⟩ := h2
    rw [abs_eq_zero] at h2x h2y
    refine ⟨rfl, ?_, ?_, Or.inr ⟨rfl, rfl, Or.inr (Or.inr rfl)⟩⟩
    · dsimp only
      rw [clamp_of_hi_le (by linarith) hly, h2x]
      nlinarith [hr]
    · dsimp only
      linarith
  -- normal case, x axis, ball right of the closest point
  · have hcx := sub_clamp_pos h7 hlx
    refine ⟨rfl, ?_, ?_, Or.inl ⟨rfl, rfl, Or.inl rfl⟩⟩
    · dsimp only
      rw [abs_of_pos h7, hcx.1]
      rw [clamp_of_hi_le (by linarith [hcx.2]) hlx]
      nlinarith [mul_self_nonneg (b.y - clamp b.y rect.y (rect.y + rect.h)), hr]
    · dsimp only
      linarith [le_abs_self (b.y - clamp b.y rect.y (rect.y + rect.h))]
  -- normal case, x axis, ball left of the closest point
  · have hne : b.x - clamp b.x rect.x (rect.x + rect.w) ≠ 0 := by
      have : 0 < |b.x - clamp b.x rect.x (rect.x + rect.w)| := by
        have := abs_nonneg (b.y - clamp b.y rect.y (rect.y + rect.h))
        linarith [h6]
      exact abs_pos.mp this
    have hlt : b.x - clamp b.x rect.x (rect.x + rect.w) < 0 :=
      lt_of_le_of_ne (not_lt.mp h7) hne
    have hcx := sub_clamp_neg hlt hlx
    refine ⟨rfl, ?_, ?_, Or.inl ⟨rfl, rfl, Or.inl rfl⟩⟩
    · dsimp only
      rw [abs_of_neg hlt, hcx.1]
      rw [clamp_of_le_lo (by linarith [hcx.2]) hlx]
      nlinarith [mul_self_nonneg (b.y - clamp b.y rect.y (rect.y + rect.h)), hr]
    · dsimp only
      linarith [le_abs_self (b.y - clamp b.y rect.y (rect.y + rect.h))]
  -- normal case, y axis, ball below the closest point
  · have hcy := sub_clamp_pos h8 hly
    refine ⟨rfl, ?_, ?_, Or.inr ⟨rfl, rfl, Or.inl rfl⟩⟩
    · dsimp only
      rw [abs_of_pos h8, hcy.1]
      rw [clamp_of_hi_le (by linarith [hcy.2]) hly]
      nlinarith [mul_self_nonneg (b.x - clamp b.x rect.x (rect.x + rect.w)), hr]
    · dsimp only
      rw [abs_of_pos h8, hcy.1]
      linarith
  -- normal case, y axis, ball above the closest point
  · have hne : b.y - clamp b.y rect.y (rect.y + rect.h) ≠ 0 := by
      have h0 : ¬(|b.x - clamp b.x rect.x (rect.x + rect.w)| = 0 ∧
          |b.y - clamp b.y rect.y (rect.y + rect.h)| = 0) := h2
      intro he
      apply h0
      have hy0 : |b.y - clamp b.y rect.y (rect.y + rect.h)| = 0 := by
        rw [he]; exact abs_zero
      have hx0 : |b.x - clamp b.x rect.x (rect.x + rect.w)| = 0 := by
        have hle : |b.x - clamp b.x rect.x (rect.x + rect.w)| ≤
            |b.y - clamp b.y rect.y (rect.y + rect.h)| := by linarith [not_lt.mp h6]
        have := abs_nonneg (b.x - clamp b.x rect.x (rect.x + rect.w))
        linarith [hy0]
      exact ⟨hx0, hy0⟩
    have hlt : b.y - clamp b.y rect.y (rect.y + rect.h) < 0 :=
      lt_of_le_of_ne (not_lt.mp h8) hne
    have hcy := sub_clamp_neg hlt hly
    refine ⟨rfl, ?_, ?_, Or.inr ⟨rfl, rfl, Or.inl rfl⟩⟩
    · dsimp only
      rw [abs_of_neg hlt, hcy.1]
      rw [clamp_of_le_lo (by linarith [hcy.2]) hly]
      nlinarith [mul_self_nonneg (b.x - clamp b.x rect.x (rect.x + rect.w)), hr]
    · dsimp only
      rw [abs_of_neg hlt, hcy.1]
      linarith

/-- Claim C8: a non-overlapping ball is reported as no collision and is
returned entirely unchanged. -/
theorem C8_theorem (b : Ball) (rect : Rect) (h : b.r * b.r < dist2 b rect) :
    reflectBallFromRect b rect = (false, b) :=
  reflect_miss h

/-- Witness for C8 at a concrete separated ball/rectangle pair. -/
theorem C8_witness :
    (6 : ℚ) * 6 < dist2 ⟨100, 100, 5, 5, 6⟩ ⟨0, 0, 10, 20⟩ ∧
    reflectBallFromRect ⟨100, 100, 5, 5, 6⟩ ⟨0, 0, 10, 20⟩ = (false, ⟨100, 100, 5, 5, 6⟩) :=
  ⟨by norm_num [dist2, clamp, min_def, max_def],
   C8_theorem ⟨100, 100, 5, 5, 6⟩ ⟨0, 0, 10, 20⟩ (by norm_num [dist2, clamp, min_def, max_def])⟩

/-- Counterexample to claim C1 as stated: the ball centred in the
rectangle `[0,10] × [0,20]` with velocity `(-3, 4)` overlaps it, the call
reports a hit and pushes the ball out along the x axis (the left edge is
nearest), yet neither velocity component flips sign: the degenerate
branch computes `vx := -|vx|`, which leaves an already-outward `vx`
unchanged. -/
theorem C1_counterexample :
    dist2 ⟨5, 10, -3, 4, 6⟩ ⟨0, 0, 10, 20⟩ ≤ 6 * 6 ∧
    reflectBallFromRect ⟨5, 10, -3, 4, 6⟩ ⟨0, 0, 10, 20⟩ =
      (true, ⟨-13/2, 10, -3, 4, 6⟩) ∧
    ¬(((reflectBallFromRect ⟨5, 10, -3, 4, 6⟩ ⟨0, 0, 10, 20⟩).2.vx = 3 ∧
        (reflectBallFromRect ⟨5, 10, -3, 4, 6⟩ ⟨0, 0, 10, 20⟩).2.vy = 4) ∨
      ((reflectBallFromRect ⟨5, 10, -3, 4, 6⟩ ⟨0, 0, 10, 20⟩).2.vy = -4 ∧
        (reflectBallFromRect ⟨5, 10, -3, 4, 6⟩ ⟨0, 0, 10, 20⟩).2.vx = -3)) := by
  norm_num [dist2, reflectBallFromRect, clamp, min_def, max_def,
    abs_of_nonneg, abs_of_nonpos]

/-- Claim C1 as amended: for an overlapping ball/rectangle pair (with
nonnegative radius and extents) the call reports a hit, the corrected
ball no longer overlaps (squared distance back at or above the squared
radius), and exactly one axis is resolved: the other axis keeps both its
position and its velocity component, and the resolved axis's velocity
component is either negated (normal case) or forced to point away from
the rectangle as `-|v|` or `|v|` (degenerate centred case). -/
theorem C1_theorem (b : Ball) (rect : Rect)
    (hr : 0 ≤ b.r) (hw : 0 ≤ rect.w) (hh : 0 ≤ rect.h)
    (hov : dist2 b rect ≤ b.r * b.r) :
    (reflectBallFromRect b rect).1 = true ∧
    b.r * b.r ≤ dist2 (reflectBallFromRect b rect).2 rect ∧
    (((reflectBallFromRect b rect).2.y = b.y ∧ (reflectBallFromRect b rect).2.vy = b.vy ∧
        ((reflectBallFromRect b rect).2.vx = -b.vx ∨ (reflectBallFromRect b rect).2.vx = -|b.vx| ∨
          (reflectBallFromRect b rect).2.vx = |b.vx|)) ∨
      ((reflectBallFromRect b rect).2.x = b.x ∧ (reflectBallFromRect b rect).2.vx = b.vx ∧
        ((reflectBallFromRect b rect).2.vy = -b.vy ∨ (reflectBallFromRect b rect).2.vy = -|b.vy| ∨
          (reflectBallFromRect b rect).2.vy = |b.vy|))) := by
  have hm := reflect_hit_master b rect hr hw hh hov
  exact ⟨hm.1, hm.2.1, hm.2.2.2⟩

/-- Witness for the amended C1 at a normal-case overlap. -/
theorem C1_witness :
    dist2 ⟨12, 5, 3, 4, 6⟩ ⟨0, 0, 10, 20⟩ ≤ (6 : ℚ) * 6 ∧
    ((reflectBallFromRect ⟨12, 5, 3, 4, 6⟩ ⟨0, 0, 10, 20⟩).1 = true ∧
      (6 : ℚ) * 6 ≤ dist2 (reflectBallFromRect ⟨12, 5, 3, 4, 6⟩ ⟨0, 0, 10, 20⟩).2 ⟨0, 0, 10, 20⟩ ∧
      (((reflectBallFromRect ⟨12, 5, 3, 4, 6⟩ ⟨0, 0, 10, 20⟩).2.y = (5 : ℚ) ∧
          (reflectBallFromRect ⟨12, 5, 3, 4, 6⟩ ⟨0, 0, 10, 20⟩).2.vy = (4 : ℚ) ∧
          ((reflectBallFromRect ⟨12, 5, 3, 4, 6⟩ ⟨0, 0, 10, 20⟩).2.vx = -(3 : ℚ) ∨
            (reflectBallFromRect ⟨12, 5, 3, 4, 6⟩ ⟨0, 0, 10, 20⟩).2.vx = -|(3 : ℚ)| ∨
            (reflectBallFromRect ⟨12, 5, 3, 4, 6⟩ ⟨0, 0, 10, 20⟩).2.vx = |(3 : ℚ)|)) ∨
        ((reflectBallFromRect ⟨12, 5, 3, 4, 6⟩ ⟨0, 0, 10, 20⟩).2.x = (12 : ℚ) ∧
          (reflectBallFromRect ⟨12, 5, 3, 4, 6⟩ ⟨0, 0, 10, 20⟩).2.vx = (3 : ℚ) ∧
          ((reflectBallFromRect ⟨12, 5, 3, 4, 6⟩ ⟨0, 0, 10, 20⟩).2.vy = -(4 : ℚ) ∨
            (reflectBallFromRect ⟨12, 5, 3, 4, 6⟩ ⟨0, 0, 10, 20⟩).2.vy = -|(4 : ℚ)| ∨
            (reflectBallFromRect ⟨12, 5, 3, 4, 6⟩ ⟨0, 0, 10, 20⟩).2.vy = |(4 : ℚ)|)))) :=
  ⟨by norm_num [dist2, clamp, min_def, max_def],
   C1_theorem ⟨12, 5, 3, 4, 6⟩ ⟨0, 0, 10, 20⟩ (by norm_num) (by norm_num) (by norm_num)
     (by norm_num [dist2, clamp, min_def, max_def])⟩

/-- Counterexample to claim C2 as stated: same degenerate geometry with
`vx = -7`; the push goes out through the left edge, but the matching
velocity component is not inverted (`-(-7) = 7`), it is left at `-7`
because the code forces `vx := -|vx|`. -/
theorem C2_counterexample :
    dist2 ⟨5, 10, -7, 4, 6⟩ ⟨0, 0, 10, 20⟩ ≤ 6 * 6 ∧
    reflectBallFromRect ⟨5, 10, -7, 4, 6⟩ ⟨0, 0, 10, 20⟩ =
      (true, ⟨-13/2, 10, -7, 4, 6⟩) ∧
    (reflectBallFromRect ⟨5, 10, -7, 4, 6⟩ ⟨0, 0, 10, 20⟩).2.vx ≠ -(-7 : ℚ) := by
  norm_num [dist2, reflectBallFromRect, clamp, min_def, max_def,
    abs_of_nonneg, abs_of_nonpos]

/-- Claim C2 as amended: on an overlap, the normal case (some axis
offset nonzero) resolves along the axis of strictly smaller overlap
(`radius - |dx|` against `radius - |dy|`, ties to Y), pushing the ball
out by `overlap + 1/2` away from the rectangle and negating that axis's
velocity component; the degenerate case (both offsets zero) pushes the
ball out through the nearest edge with tie-break order left, right, top,
bottom, forcing (not negating) the matching velocity component to point
away from the rectangle. -/
theorem C2_theorem (b : Ball) (rect : Rect)
    (hov : dist2 b rect ≤ b.r * b.r) :
    (¬(|b.x - clamp b.x rect.x (rect.x + rect.w)| = 0 ∧
        |b.y - clamp b.y rect.y (rect.y + rect.h)| = 0) →
      ((b.r - |b.x - clamp b.x rect.x (rect.x + rect.w)| <
          b.r - |b.y - clamp b.y rect.y (rect.y + rect.h)| →
        reflectBallFromRect b rect =
          (true, { b with
            x := if b.x - clamp b.x rect.x (rect.x + rect.w) > 0 then
                b.x + (b.r - |b.x - clamp b.x rect.x (rect.x + rect.w)| + 1/2)
              else b.x - (b.r - |b.x - clamp b.x rect.x (rect.x + rect.w)| + 1/2)
            vx := -b.vx })) ∧
       (¬(b.r - |b.x - clamp b.x rect.x (rect.x + rect.w)| <
          b.r - |b.y - clamp b.y rect.y (rect.y + rect.h)|) →
        reflectBallFromRect b rect =
          (true, { b with
            y := if b.y - clamp b.y rect.y (rect.y + rect.h) > 0 then
                b.y + (b.r - |b.y - clamp b.y rect.y (rect.y + rect.h)| + 1/2)
              else b.y - (b.r - |b.y - clamp b.y rect.y (rect.y + rect.h)| + 1/2)
            vy := -b.vy })))) ∧
    ((|b.x - clamp b.x rect.x (rect.x + rect.w)| = 0 ∧
        |b.y - clamp b.y rect.y (rect.y + rect.h)| = 0) →
      ((min (min (min |b.x - rect.x| |rect.x + rect.w - b.x|) |b.y - rect.y|)
          |rect.y + rect.h - b.y| = |b.x - rect.x| →
        reflectBallFromRect b rect =
          (true, { b with x := rect.x - b.r - 1/2, vx := -|b.vx| })) ∧
       (min (min (min |b.x - rect.x| |rect.x + rect.w - b.x|) |b.y - rect.y|)
          |rect.y + rect.h - b.y| ≠ |b.x - rect.x| →
        min (min (min |b.x - rect.x| |rect.x + rect.w - b.x|) |b.y - rect.y|)
          |rect.y + rect.h - b.y| = |rect.x + rect.w - b.x| →
        reflectBallFromRect b rect =
          (true, { b with x := rect.x + rect.w + b.r + 1/2, vx := |b.vx| })) ∧
       (min (min (min |b.x - rect.x| |rect.x + rect.w - b.x|) |b.y - rect.y|)
          |rect.y + rect.h - b.y| ≠ |b.x - rect.x| →
        min (min (min |b.x - rect.x| |rect.x + rect.w - b.x|) |b.y - rect.y|)
          |rect.y + rect.h - b.y| ≠ |rect.x + rect.w - b.x| →
        min (min (min |b.x - rect.x| |rect.x + rect.w - b.x|) |b.y - rect.y|)
          |rect.y + rect.h - b.y| = |b.y - rect.y| →
        reflectBallFromRect b rect =
          (true, { b with y := rect.y - b.r - 1/2, vy := -|b.vy| })) ∧
       (min (min (min |b.x - rect.x| |rect.x + rect.w - b.x|) |b.y - rect.y|)
          |rect.y + rect.h - b.y| ≠ |b.x - rect.x| →
        min (min (min |b.x - rect.x| |rect.x + rect.w - b.x|) |b.y - rect.y|)
          |rect.y + rect.h - b.y| ≠ |rect.x + rect.w - b.x| →
        min (min (min |b.x - rect.x| |rect.x + rect.w - b.x|) |b.y - rect.y|)
          |rect.y + rect.h - b.y| ≠ |b.y - rect.y| →
        reflectBallFromRect b rect =
          (true, { b with y := rect.y + rect.h + b.r + 1/2, vy := |b.vy| })))) := by
  simp only [dist2] at hov
  have hnm : ¬(b.r * b.r <
      (b.x - clamp b.x rect.x (rect.x + rect.w)) * (b.x - clamp b.x rect.x (rect.x + rect.w)) +
      (b.y - clamp b.y rect.y (rect.y + rect.h)) * (b.y - clamp b.y rect.y (rect.y + rect.h))) :=
    not_lt.mpr hov
  constructor
  · intro hdeg
    constructor
    · intro hlt
      simp only [reflectBallFromRect]
      rw [if_neg hnm, if_neg hdeg, if_pos hlt]
      split_ifs with hdx <;> rfl
    · intro hge
      simp only [reflectBallFromRect]
      rw [if_neg hnm, if_neg hdeg, if_neg hge]
      split_ifs with hdy <;> rfl
  · intro hdeg
    refine ⟨?_, ?_, ?_, ?_⟩
    · intro hL
      simp only [reflectBallFromRect]
      rw [if_neg hnm, if_pos hdeg, if_pos hL]
    · intro hnL hR
      simp only [reflectBallFromRect]
      rw [if_neg hnm, if_pos hdeg, if_neg hnL, if_pos hR]
    · intro hnL hnR hT
      simp only [reflectBallFromRect]
      rw [if_neg hnm, if_pos hdeg, if_neg hnL, if_neg hnR, if_pos hT]
    · intro hnL hnR hnT
      simp only [reflectBallFromRect]
      rw [if_neg hnm, if_pos hdeg, if_neg hnL, if_neg hnR, if_neg hnT]

/-- Witness for the amended C2 at a concrete normal-case overlap
reflecting the x axis. -/
theorem C2_witness :
    dist2 ⟨12, 5, 3, 4, 6⟩ ⟨0, 0, 10, 20⟩ ≤ (6 : ℚ) * 6 ∧
    reflectBallFromRect ⟨12, 5, 3, 4, 6⟩ ⟨0, 0, 10, 20⟩ =
      (true, { x := 33/2, y := 5, vx := -3, vy := 4, r := 6 }) := by
  have h := C2_theorem ⟨12, 5, 3, 4, 6⟩ ⟨0, 0, 10, 20⟩
    (by norm_num [dist2, clamp, min_def, max_def])
  refine ⟨by norm_num [dist2, clamp, min_def, max_def], ?_⟩
  have h2 := (h.1 (by norm_num [clamp, min_def, max_def])).1
    (by norm_num [clamp, min_def, max_def])
  rw [h2]
  norm_num [clamp, min_def, max_def]

lemma brickPhase_length (l : List Brick) (b : Ball) :
    (brickPhase l b).1.length = l.length := by
  induction l with
  | nil => rfl
  | cons br rest ih =>
    simp only [brickPhase]
    split_ifs with h
    · simp
    · simpa using ih

lemma brickPhase_ball_r (l : List Brick) (b : Ball) :
    (brickPhase l b).2.1.r = b.r := by
  induction l with
  | nil => rfl
  | cons br rest ih =>
    simp only [brickPhase]
    split_ifs with h
    · simpa using reflect_r b br.toRect
    · simpa using ih

lemma brickPhase_no_hit (l : List Brick) (b : Ball)
    (h : (brickPhase l b).2.2 = false) :
    (brickPhase l b).1 = l ∧ (brickPhase l b).2.1 = b ∧
    ∀ br ∈ l, ¬(br.active = true ∧ (reflectBallFromRect b br.toRect).1 = true) := by
  induction l with
  | nil => exact ⟨rfl, rfl, by simp⟩
  | cons br rest ih =>
    simp only [brickPhase] at h ⊢
    split_ifs at h ⊢ with hc
    obtain ⟨h1, h2, h3⟩ := ih h
    refine ⟨by simp [h1], by simpa using h2, ?_⟩
    intro br2 hbr2
    rcases List.mem_cons.mp hbr2 with rfl | hmem
    · intro ⟨ha, hrf⟩
      exact hc (by simp [ha, hrf])
    · exact h3 br2 hmem

lemma brickPhase_hit (l : List Brick) (b : Ball)
    (h : (brickPhase l b).2.2 = true) :
    ∃ i : Fin l.length,
      (l.get i).active = true ∧
      (reflectBallFromRect b (l.get i).toRect).1 = true ∧
      (∀ j : Fin l.length, (j : ℕ) < (i : ℕ) →
        ¬((l.get j).active = true ∧ (reflectBallFromRect b (l.get j).toRect).1 = true)) ∧
      (brickPhase l b).1 = l.set i { l.get i with active := false } ∧
      (brickPhase l b).2.1 = (reflectBallFromRect b (l.get i).toRect).2 := by
  induction l with
  | nil => simp [brickPhase] at h
  | cons br rest ih =>
    simp only [brickPhase] at h ⊢
    split_ifs at h ⊢ with hc
    · obtain ⟨ha, hrf⟩ := Bool.and_eq_true_iff.mp hc
      exact ⟨⟨0, by simp⟩, ha, hrf, by simp, by simp, by simp⟩
    · obtain ⟨i, h1, h2, h3, h4, h5⟩ := ih h
      refine ⟨⟨i + 1, by simp⟩, by simpa using h1, by simpa using h2, ?_, ?_, ?_⟩
      · intro j hj
        match j with
        | ⟨0, _⟩ =>
          intro ⟨ha, hrf⟩
          exact hc (by simp_all)
        | ⟨k + 1, hk⟩ =>
          intro hcontra
          exact h3 ⟨k, by simpa using hk⟩ (by simpa using hj) (by simpa using hcontra)
      · simpa using h4
      · simpa using h5

lemma bricksLow_brickPhase {l : List Brick} (b : Ball) (h : bricksLow l) :
    bricksLow (brickPhase l b).1 := by
  induction l with
  | nil => exact h
  | cons br rest ih =>
    simp only [brickPhase]
    have hbr := h br (by simp)
    have hrest : bricksLow rest := fun x hx => h x (by simp [hx])
    split_ifs with hc
    · intro x hx
      rcases List.mem_cons.mp hx with rfl | hmem
      · exact hbr
      · exact hrest x hmem
    · intro x hx
      rcases List.mem_cons.mp hx with rfl | hmem
      · exact hbr
      · exact ih hrest x (by simpa using hmem)

lemma collidePhase_mode (s : GameState) : (collidePhase s).mode = s.mode := rfl

lemma collidePhase_lives (s : GameState) : (collidePhase s).lives = s.lives := rfl

lemma collidePhase_paddle (s : GameState) : (collidePhase s).paddle = s.paddle := rfl

lemma collidePhase_bricks (s : GameState) :
    (collidePhase s).bricks =
      (brickPhase s.bricks (paddlePhase s.paddle (wallPhase s.ball))).1 := rfl

lemma collidePhase_ball (s : GameState) :
    (collidePhase s).ball =
      (brickPhase s.bricks (paddlePhase s.paddle (wallPhase s.ball))).2.1 := rfl

lemma collidePhase_score (s : GameState) :
    (collidePhase s).score = s.score +
      (if (brickPhase s.bricks (paddlePhase s.paddle (wallPhase s.ball))).2.2
        then 10 else 0) := rfl

lemma wallPhase_r (b : Ball) : (wallPhase b).r = b.r := by
  simp only [wallPhase]
  split_ifs <;> rfl

lemma paddlePhase_r (p : Paddle) (b : Ball) : (paddlePhase p b).r = b.r := by
  simp only [paddlePhase]
  split_ifs with h
  · exact reflect_r b p.toRect
  · rfl

lemma collidePhase_ball_r (s : GameState) : (collidePhase s).ball.r = s.ball.r := by
  rw [collidePhase_ball, brickPhase_ball_r, paddlePhase_r, wallPhase_r]

lemma oobPhase_not {dir : Bool} {s : GameState} (h : ¬ ballOut s) :
    oobPhase dir s = s := by
  unfold oobPhase
  rw [if_neg h]

lemma oobPhase_lose {dir : Bool} {s : GameState} (h : ballOut s) (h2 : s.lives - 1 ≤ 0) :
    oobPhase dir s = { s with lives := s.lives - 1, mode := Mode.lose } := by
  simp only [oobPhase]
  rw [if_pos h, if_pos h2]

lemma oobPhase_reset {dir : Bool} {s : GameState} (h : ballOut s) (h2 : ¬(s.lives - 1 ≤ 0)) :
    oobPhase dir s =
      { s with
        lives := s.lives - 1
        ball := resetBallOnPaddle dir s.paddle s.ball } := by
  simp only [oobPhase]
  rw [if_pos h, if_neg h2]

lemma oobPhase_bricks (dir : Bool) (s : GameState) :
    (oobPhase dir s).bricks = s.bricks := by
  simp only [oobPhase]
  split_ifs <;> rfl

lemma oobPhase_paddle (dir : Bool) (s : GameState) :
    (oobPhase dir s).paddle = s.paddle := by
  simp only [oobPhase]
  split_ifs <;> rfl

lemma oobPhase_score (dir : Bool) (s : GameState) :
    (oobPhase dir s).score = s.score := by
  simp only [oobPhase]
  split_ifs <;> rfl

lemma oobPhase_ball_r (dir : Bool) (s : GameState) :
    (oobPhase dir s).ball.r = s.ball.r := by
  simp only [oobPhase]
  split_ifs <;> rfl

lemma oobPhase_lives_le (dir : Bool) (s : GameState) :
    (oobPhase dir s).lives ≤ s.lives := by
  simp only [oobPhase]
  split_ifs <;> (try dsimp only) <;> omega

lemma winPhase_pos {s : GameState} (h : allCleared s.bricks = true) :
    winPhase s = { s with mode := Mode.win } := by
  unfold winPhase
  rw [if_pos h]

lemma winPhase_neg {s : GameState} (h : allCleared s.bricks = false) :
    winPhase s = s := by
  unfold winPhase
  rw [if_neg (by simp [h])]

lemma winPhase_lives (s : GameState) : (winPhase s).lives = s.lives := by
  unfold winPhase
  split_ifs <;> rfl

lemma winPhase_bricks (s : GameState) : (winPhase s).bricks = s.bricks := by
  unfold winPhase
  split_ifs <;> rfl

lemma winPhase_ball (s : GameState) : (winPhase s).ball = s.ball := by
  unfold winPhase
  split_ifs <;> rfl

lemma winPhase_paddle (s : GameState) : (winPhase s).paddle = s.paddle := by
  unfold winPhase
  split_ifs <;> rfl

lemma winPhase_score (s : GameState) : (winPhase s).score = s.score := by
  unfold winPhase
  split_ifs <;> rfl

lemma update_playing {s : GameState} (dir : Bool) (dt : ℚ) (h : s.mode = Mode.playing) :
    update dir dt s = winPhase (oobPhase dir (collidePhase (integrate dt s))) := by
  unfold update checkCollisions
  rw [if_pos h]

lemma update_not_playing {s : GameState} (dir : Bool) (dt : ℚ) (h : s.mode ≠ Mode.playing) :
    update dir dt s = s := by
  unfold update
  rw [if_neg h]

lemma update_lives_le (dir : Bool) (dt : ℚ) (s : GameState) :
    (update dir dt s).lives ≤ s.lives := by
  by_cases h : s.mode = Mode.playing
  · rw [update_playing dir dt h, winPhase_lives]
    calc (oobPhase dir (collidePhase (integrate dt s))).lives
        ≤ (collidePhase (integrate dt s)).lives := oobPhase_lives_le _ _
      _ = s.lives := by rw [collidePhase_lives]; rfl
  · rw [update_not_playing dir dt h]

lemma runTicks_lives_le (l : List (Bool × ℚ)) (s : GameState) :
    (runTicks l s).lives ≤ s.lives := by
  induction l generalizing s with
  | nil => exact le_refl _
  | cons p l ih =>
    obtain ⟨d, dt⟩ := p
    simp only [runTicks]
    exact le_trans (ih _) (update_lives_le d dt s)

lemma update_score_step (dir : Bool) (dt : ℚ) (s : GameState) :
    (update dir dt s).score = s.score ∨ (update dir dt s).score = s.score + 10 := by
  by_cases h : s.mode = Mode.playing
  · rw [update_playing dir dt h, winPhase_score, oobPhase_score, collidePhase_score]
    by_cases hb : (brickPhase (integrate dt s).bricks
        (paddlePhase (integrate dt s).paddle (wallPhase (integrate dt s).ball))).2.2
    · right; rw [if_pos hb]; rfl
    · left; rw [if_neg hb]; rfl
  · left; rw [update_not_playing dir dt h]

lemma runTicks_score (l : List (Bool × ℚ)) (s : GameState) :
    ∃ k ≤ l.length, (runTicks l s).score = s.score + 10 * k := by
  induction l generalizing s with
  | nil => exact ⟨0, by simp, by simp [runTicks]⟩
  | cons p l ih =>
    obtain ⟨d, dt⟩ := p
    simp only [runTicks]
    obtain ⟨k, hk, hs⟩ := ih (update d dt s)
    rcases update_score_step d dt s with h | h
    · exact ⟨k, le_trans hk (by simp), by rw [hs, h]⟩
    · exact ⟨k + 1, by simpa using Nat.succ_le_succ hk, by rw [hs, h]; ring⟩

lemma initBricks_length : initBricks.length = 40 := by decide

lemma allCleared_initBricks : allCleared initBricks = false := by decide

lemma initBricks_low : bricksLow initBricks := by
  intro br hbr
  simp only [initBricks, List.mem_flatMap, List.mem_map, List.mem_range] at hbr
  obtain ⟨row, hrow, col, hcol, rfl⟩ := hbr
  refine ⟨by norm_num [brickW, GAME_W], by norm_num, ?_⟩
  have hc : (row : ℚ) ≤ 4 := by
    have h4 : row ≤ 4 := Nat.lt_succ_iff.mp hrow
    exact_mod_cast h4
  simp only [GAME_H]
  norm_num
  linarith

lemma smooth_mem {x t w dt : ℚ} (hx0 : 0 ≤ x) (hx1 : x + w ≤ GAME_W)
    (ht0 : 0 ≤ t) (ht1 : t + w ≤ GAME_W) (hdt : 0 ≤ dt) :
    0 ≤ x + (t - x) * min 1 (dt * PADDLE_SMOOTHING) ∧
    x + (t - x) * min 1 (dt * PADDLE_SMOOTHING) + w ≤ GAME_W := by
  have hm0 : 0 ≤ min 1 (dt * PADDLE_SMOOTHING) :=
    le_min (by norm_num) (mul_nonneg hdt (by norm_num [PADDLE_SMOOTHING]))
  have hm1 : min 1 (dt * PADDLE_SMOOTHING) ≤ 1 := min_le_left _ _
  constructor
  · nlinarith [mul_nonneg hm0 ht0,
      mul_nonneg (by linarith : (0:ℚ) ≤ 1 - min 1 (dt * PADDLE_SMOOTHING)) hx0]
  · nlinarith [mul_nonneg hm0 (by linarith : (0:ℚ) ≤ GAME_W - w - t),
      mul_nonneg (by linarith : (0:ℚ) ≤ 1 - min 1 (dt * PADDLE_SMOOTHING))
        (by linarith : (0:ℚ) ≤ GAME_W - w - x)]

lemma gameInv_initial : GameInv initialState := by
  refine ⟨?_, ?_, ?_, ?_, rfl, rfl, rfl, ?_, ?_, ?_⟩
  · norm_num [initialState, GAME_W]
  · norm_num [initialState, GAME_W]
  · norm_num [initialState, GAME_W]
  · norm_num [initialState, GAME_W]
  · intro hc; cases hc
  · intro hc; cases hc
  · intro hc; cases hc

lemma startNewGame_inv (dir : Bool) {s : GameState} (hI : GameInv s) :
    GameInv (startNewGame dir s) := by
  obtain ⟨h1, h2, h3, h4, hw, hh, hr, -, -, -⟩ := hI
  have hpx : (startNewGame dir s).paddle.x = GAME_W / 2 - s.paddle.w / 2 := rfl
  have hpt : (startNewGame dir s).paddle.targetX = GAME_W / 2 - s.paddle.w / 2 := rfl
  have hpw : (startNewGame dir s).paddle.w = s.paddle.w := rfl
  have hph : (startNewGame dir s).paddle.h = s.paddle.h := rfl
  have hbr : (startNewGame dir s).bricks = initBricks := rfl
  have hmode : (startNewGame dir s).mode = Mode.playing := rfl
  have hlv : (startNewGame dir s).lives = 3 := rfl
  have hbl : (startNewGame dir s).ball.r = s.ball.r := rfl
  refine ⟨?_, ?_, ?_, ?_, ?_, ?_, ?_, ?_, ?_, ?_⟩
  · rw [hpx, hw]; norm_num [GAME_W]
  · rw [hpx, hpw, hw]; norm_num [GAME_W]
  · rw [hpt, hw]; norm_num [GAME_W]
  · rw [hpt, hpw, hw]; norm_num [GAME_W]
  · rw [hpw]; exact hw
  · rw [hph]; exact hh
  · rw [hbl]; exact hr
  · intro _
    rw [hlv, hbr]
    exact ⟨by norm_num, initBricks_length, allCleared_initBricks, initBricks_low⟩
  · intro hc
    rw [hmode] at hc
    cases hc
  · intro hc
    rw [hmode] at hc
    cases hc

lemma update_inv (dir : Bool) (dt : ℚ) {s : GameState} (hdt : 0 ≤ dt)
    (hI : GameInv s) : GameInv (update dir dt s) := by
  by_cases hm : s.mode = Mode.playing
  case neg => rw [update_not_playing dir dt hm]; exact hI
  case pos =>
  obtain ⟨h1, h2, h3, h4, hw, hh, hr, hplay, hwin, hlose⟩ := hI
  obtain ⟨hlive, hlen, hcl, hlow⟩ := hplay hm
  rw [update_playing dir dt hm]
  set m := collidePhase (integrate dt s) with hmdef
  have hm_mode : m.mode = Mode.playing := hm
  have hm_lives : m.lives = s.lives := rfl
  have hm_paddle : m.paddle =
      { s.paddle with
        x := s.paddle.x + (s.paddle.targetX - s.paddle.x) * min 1 (dt * PADDLE_SMOOTHING) } := rfl
  have hm_r : m.ball.r = s.ball.r := by
    rw [hmdef, collidePhase_ball_r]
    rfl

  have hm_len : m.bricks.length = 40 := by
    rw [hmdef, collidePhase_bricks, brickPhase_length]
    exact hlen
  have hm_low : bricksLow m.bricks := by
    rw [hmdef, collidePhase_bricks]
    exact bricksLow_brickPhase _ hlow
  have hpb := smooth_mem h1 h2 h3 h4 hdt
  have hm_px : 0 ≤ m.paddle.x := by rw [hm_paddle]; exact hpb.1
  have hm_px2 : m.paddle.x + m.paddle.w ≤ GAME_W := by rw [hm_paddle]; exact hpb.2
  have hm_pt : 0 ≤ m.paddle.targetX := by rw [hm_paddle]; exact h3
  have hm_pt2 : m.paddle.targetX + m.paddle.w ≤ GAME_W := by rw [hm_paddle]; exact h4
  have hm_pw : m.paddle.w = 60 := by rw [hm_paddle]; exact hw
  have hm_ph : m.paddle.h = 10 := by rw [hm_paddle]; exact hh
  by_cases hclear : allCleared (oobPhase dir m).bricks = true
  · rw [winPhase_pos hclear]
    rw [oobPhase_bricks] at hclear
    refine ⟨?_, ?_, ?_, ?_, ?_, ?_, ?_, ?_, ?_, ?_⟩
    · show 0 ≤ (oobPhase dir m).paddle.x
      rw [oobPhase_paddle]; exact hm_px
    · show (oobPhase dir m).paddle.x + (oobPhase dir m).paddle.w ≤ GAME_W
      rw [oobPhase_paddle]; exact hm_px2
    · show 0 ≤ (oobPhase dir m).paddle.targetX
      rw [oobPhase_paddle]; exact hm_pt
    · show (oobPhase dir m).paddle.targetX + (oobPhase dir m).paddle.w ≤ GAME_W
      rw [oobPhase_paddle]; exact hm_pt2
    · show (oobPhase dir m).paddle.w = 60
      rw [oobPhase_paddle]; exact hm_pw
    · show (oobPhase dir m).paddle.h = 10
      rw [oobPhase_paddle]; exact hm_ph
    · show (oobPhase dir m).ball.r = 6
      rw [oobPhase_ball_r, hm_r]; exact hr
    · intro hc
      cases hc
    · intro _
      show allCleared (oobPhase dir m).bricks = true
      rw [oobPhase_bricks]; exact hclear
    · intro hc
      cases hc
  · have hclear' : allCleared (oobPhase dir m).bricks = false := by
      revert hclear
      cases allCleared (oobPhase dir m).bricks <;> simp
    rw [winPhase_neg hclear']
    rw [oobPhase_bricks] at hclear'
    by_cases hob : ballOut m
    · by_cases hl : m.lives - 1 ≤ 0
      · rw [oobPhase_lose hob hl]
        refine ⟨hm_px, hm_px2, hm_pt, hm_pt2, hm_pw, hm_ph, ?_, ?_, ?_, ?_⟩
        · show m.ball.r = 6
          rw [hm_r]; exact hr
        · intro hc
          cases hc
        · intro hc
          cases hc
        · intro _
          constructor
          · show m.lives - 1 = 0
            rw [hm_lives] at hl ⊢
            omega
          · exact hclear'
      · rw [oobPhase_reset hob hl]
        refine ⟨hm_px, hm_px2, hm_pt, hm_pt2, hm_pw, hm_ph, ?_, ?_, ?_, ?_⟩
        · show (resetBallOnPaddle dir m.paddle m.ball).r = 6
          show m.ball.r = 6
          rw [hm_r]; exact hr
        · intro _
          refine ⟨?_, hm_len, hclear', hm_low⟩
          show 1 ≤ m.lives - 1
          omega
        · intro hc
          exact absurd (hm_mode.symm.trans hc) (by decide)
        · intro hc
          exact absurd (hm_mode.symm.trans hc) (by decide)
    · rw [oobPhase_not hob]
      refine ⟨hm_px, hm_px2, hm_pt, hm_pt2, hm_pw, hm_ph, ?_, ?_, ?_, ?_⟩
      · rw [hm_r]; exact hr
      · intro _
        exact ⟨by rw [hm_lives]; exact hlive, hm_len, hclear', hm_low⟩
      · intro hc
        rw [hm_mode] at hc
        cases hc
      · intro hc
        rw [hm_mode] at hc
        cases hc

lemma pointerdown_inv (dir : Bool) (gx : ℚ) {s : GameState} (hI : GameInv s) :
    GameInv (pointerdown dir gx s) := by
  unfold pointerdown
  split_ifs with h h2
  · exact startNewGame_inv dir hI
  · exact hI
  · exact hI

lemma pointermove_inv (gx : ℚ) {s : GameState} (hI : GameInv s) :
    GameInv (pointermove gx s) := by
  unfold pointermove
  split_ifs with h
  · obtain ⟨h1, h2, h3, h4, hw, hh, hr, hplay, hwin, hlose⟩ := hI
    have hwle : (0:ℚ) ≤ GAME_W - s.paddle.w := by rw [hw]; norm_num [GAME_W]
    refine ⟨h1, h2, ?_, ?_, hw, hh, hr, hplay, hwin, hlose⟩
    · exact lo_le_clamp
    · have := clamp_le_hi (v := gx - s.input.grabOffset - s.paddle.w / 2) hwle
      linarith
  · exact hI

lemma pointerup_inv {s : GameState} (hI : GameInv s) : GameInv (pointerup s) := hI

lemma keydown_inv (dir : Bool) (k : Key) {s : GameState} (hI : GameInv s) :
    GameInv (keydown dir k s) := by
  unfold keydown
  split_ifs with h h2
  · cases k
    · exact startNewGame_inv dir hI
    · exact startNewGame_inv dir hI
    · exact hI
    · exact hI
    · exact hI
  · obtain ⟨h1, h2g, h3, h4, hw, hh, hr, hplay, hwin, hlose⟩ := hI
    have hwle : (0:ℚ) ≤ GAME_W - s.paddle.w := by rw [hw]; norm_num [GAME_W]
    cases k
    · exact ⟨h1, h2g, h3, h4, hw, hh, hr, hplay, hwin, hlose⟩
    · exact ⟨h1, h2g, h3, h4, hw, hh, hr, hplay, hwin, hlose⟩
    · refine ⟨h1, h2g, lo_le_clamp, ?_, hw, hh, hr, hplay, hwin, hlose⟩
      have := clamp_le_hi (v := s.paddle.targetX - 10) hwle
      linarith
    · refine ⟨h1, h2g, lo_le_clamp, ?_, hw, hh, hr, hplay, hwin, hlose⟩
      have := clamp_le_hi (v := s.paddle.targetX + 10) hwle
      linarith
    · exact ⟨h1, h2g, h3, h4, hw, hh, hr, hplay, hwin, hlose⟩
  · exact hI

lemma reach_inv {s : GameState} (h : Reachable s) : GameInv s := by
  induction h with
  | init => exact gameInv_initial
  | tick s dir dt hs h0 h1 ih => exact update_inv dir dt h0 ih
  | pdown s dir gx hs ih => exact pointerdown_inv dir gx ih
  | pmove s gx hs ih => exact pointermove_inv gx ih
  | pup s hs ih => exact pointerup_inv ih
  | key s dir k hs ih => exact keydown_inv dir k ih

lemma oobPhase_mode (dir : Bool) (s : GameState) :
    (oobPhase dir s).mode = s.mode ∨ (oobPhase dir s).mode = Mode.lose := by
  simp only [oobPhase]
  split_ifs <;> simp

/-- Claim C3: over reachable states, `win` holds only with every brick
inactive and `lose` only with lives at zero and bricks not cleared; and
for one playing tick, the final mode is `win` exactly when the tick ends
with all bricks inactive (the win check runs after brick collisions, so
destroying the last brick wins that very tick), and `lose` exactly when
the tick ends with zero lives and uncleared bricks. -/
theorem C3_theorem :
    (∀ s : GameState, Reachable s →
      (s.mode = Mode.win → allCleared s.bricks = true) ∧
      (s.mode = Mode.lose → s.lives = 0 ∧ allCleared s.bricks = false)) ∧
    (∀ (dir : Bool) (dt : ℚ) (s : GameState), s.mode = Mode.playing →
      ((update dir dt s).mode = Mode.win ↔
        allCleared (update dir dt s).bricks = true)) ∧
    (∀ (dir : Bool) (dt : ℚ) (s : GameState), s.mode = Mode.playing → 1 ≤ s.lives →
      ((update dir dt s).mode = Mode.lose ↔
        ((update dir dt s).lives = 0 ∧
          allCleared (update dir dt s).bricks = false))) := by
  refine ⟨?_, ?_, ?_⟩
  · intro s h
    obtain ⟨-, -, -, -, -, -, -, -, hwin, hlose⟩ := reach_inv h
    exact ⟨hwin, hlose⟩
  · intro dir dt s hm
    rw [update_playing dir dt hm]
    set m := collidePhase (integrate dt s) with hmdef
    have hm_mode : m.mode = Mode.playing := hm
    constructor
    · intro hwmode
      by_cases hc : allCleared (oobPhase dir m).bricks = true
      · rw [winPhase_bricks]
        exact hc
      · have hc' : allCleared (oobPhase dir m).bricks = false := by
          revert hc
          cases allCleared (oobPhase dir m).bricks <;> simp
        rw [winPhase_neg hc'] at hwmode
        rcases oobPhase_mode dir m with he | he
        · exact absurd (hm_mode.symm.trans (he.symm.trans hwmode)) (by decide)
        · exact absurd (he.symm.trans hwmode) (by decide)
    · intro hcb
      rw [winPhase_bricks] at hcb
      rw [winPhase_pos hcb]
  · intro dir dt s hm hl
    rw [update_playing dir dt hm]
    set m := collidePhase (integrate dt s) with hmdef
    have hm_mode : m.mode = Mode.playing := hm
    have hm_lives : m.lives = s.lives := rfl
    constructor
    · intro hlmode
      by_cases hc : allCleared (oobPhase dir m).bricks = true
      · rw [winPhase_pos hc] at hlmode
        have hwl : Mode.win = Mode.lose := hlmode
        exact absurd hwl (by decide)
      · have hc' : allCleared (oobPhase dir m).bricks = false := by
          revert hc
          cases allCleared (oobPhase dir m).bricks <;> simp
        rw [winPhase_neg hc'] at hlmode ⊢
        by_cases hob : ballOut m
        · by_cases hlv : m.lives - 1 ≤ 0
          · rw [oobPhase_lose hob hlv] at hc' ⊢
            refine ⟨?_, hc'⟩
            show m.lives - 1 = 0
            rw [hm_lives] at hlv ⊢
            omega
          · rw [oobPhase_reset hob hlv] at hlmode
            exact absurd (hm_mode.symm.trans hlmode) (by decide)
        · rw [oobPhase_not hob] at hlmode
          exact absurd (hm_mode.symm.trans hlmode) (by decide)
    · intro hpair
      obtain ⟨hlv0, hcf⟩ := hpair
      by_cases hc : allCleared (oobPhase dir m).bricks = true
      · rw [winPhase_bricks] at hcf
        exact absurd (hc.symm.trans hcf) (by decide)
      · have hc' : allCleared (oobPhase dir m).bricks = false := by
          revert hc
          cases allCleared (oobPhase dir m).bricks <;> simp
        rw [winPhase_neg hc'] at hlv0 hcf ⊢
        by_cases hob : ballOut m
        · by_cases hlv : m.lives - 1 ≤ 0
          · rw [oobPhase_lose hob hlv]
          · rw [oobPhase_reset hob hlv] at hlv0
            have hz : m.lives - 1 = 0 := hlv0
            omega
        · rw [oobPhase_not hob] at hlv0
          have hz : m.lives = 0 := hlv0
          rw [hm_lives] at hz
          omega

/-- Witness for C3 at the initial state and one concrete playing tick. -/
theorem C3_witness :
    ((initialState.mode = Mode.win → allCleared initialState.bricks = true) ∧
      (initialState.mode = Mode.lose →
        initialState.lives = 0 ∧ allCleared initialState.bricks = false)) ∧
    ((update true 0 (startNewGame true initialState)).mode = Mode.win ↔
      allCleared (update true 0 (startNewGame true initialState)).bricks = true) ∧
    ((update true 0 (startNewGame true initialState)).mode = Mode.lose ↔
      ((update true 0 (startNewGame true initialState)).lives = 0 ∧
        allCleared (update true 0 (startNewGame true initialState)).bricks = false)) :=
  ⟨C3_theorem.1 initialState Reachable.init,
   C3_theorem.2.1 true 0 (startNewGame true initialState) rfl,
   C3_theorem.2.2 true 0 (startNewGame true initialState) rfl (by decide)⟩

/-- Claim C7: in every reachable state the paddle lies fully inside the
playfield horizontally, and its width and height still have their
creation-time values (60 and 10); this covers the initial state, every
tick's smoothing step, and every pointer or arrow-key input. -/
theorem C7_theorem (s : GameState) (h : Reachable s) :
    0 ≤ s.paddle.x ∧ s.paddle.x ≤ GAME_W - s.paddle.w ∧
    s.paddle.w = 60 ∧ s.paddle.h = 10 := by
  obtain ⟨h1, h2, -, -, hw, hh, -, -, -, -⟩ := reach_inv h
  exact ⟨h1, by linarith, hw, hh⟩

/-- Witness for C7 at the initial state. -/
theorem C7_witness :
    0 ≤ initialState.paddle.x ∧
    initialState.paddle.x ≤ GAME_W - initialState.paddle.w ∧
    initialState.paddle.w = 60 ∧ initialState.paddle.h = 10 :=
  C7_theorem initialState Reachable.init

/-- Claim C9: whenever a reachable state is in mode `playing`, the brick
list holds exactly 40 records (the 5-by-8 grid built by `initGame`
before play can be observed), so the vacuous-truth of the win check on
an empty list can never fire during play. -/
theorem C9_theorem (s : GameState) (h : Reachable s)
    (hm : s.mode = Mode.playing) : s.bricks.length = 40 := by
  obtain ⟨-, -, -, -, -, -, -, hplay, -, -⟩ := reach_inv h
  exact (hplay hm).2.1

/-- Witness for C9 right after a start trigger from the menu. -/
theorem C9_witness : (pointerdown true 0 initialState).bricks.length = 40 :=
  C9_theorem (pointerdown true 0 initialState)
    (Reachable.pdown initialState true 0 Reachable.init) (by decide)

/-- Claim C10: when the ball is out of bounds and lives stay positive
after the decrement, the out-of-bounds handler changes only `lives` and
the ball — the ball is re-placed at the paddle's horizontal centre,
resting one unit above it, with `vy = -260` and `vx = 180` or `-180` —
while score, bricks, paddle and mode are untouched. -/
theorem C10_theorem (dir : Bool) (s : GameState)
    (h : ballOut s) (h2 : 1 ≤ s.lives - 1) :
    oobPhase dir s =
      { s with
        lives := s.lives - 1
        ball := resetBallOnPaddle dir s.paddle s.ball } ∧
    (oobPhase dir s).ball.x = s.paddle.x + s.paddle.w / 2 ∧
    (oobPhase dir s).ball.y = s.paddle.y - s.ball.r - 1 ∧
    (oobPhase dir s).ball.vy = -260 ∧
    ((oobPhase dir s).ball.vx = 180 ∨ (oobPhase dir s).ball.vx = -180) ∧
    (oobPhase dir s).score = s.score ∧
    (oobPhase dir s).bricks = s.bricks ∧
    (oobPhase dir s).paddle = s.paddle ∧
    (oobPhase dir s).mode = s.mode := by
  have h2' : ¬(s.lives - 1 ≤ 0) := by omega
  have he := @oobPhase_reset dir s h h2'
  rw [he]
  refine ⟨rfl, rfl, rfl, rfl, ?_, rfl, rfl, rfl, rfl⟩
  cases dir
  · right
    show BALL_SPEED_X * (-1 : ℚ) = -180
    norm_num [BALL_SPEED_X]
  · left
    show BALL_SPEED_X * (1 : ℚ) = 180
    norm_num [BALL_SPEED_X]

/-- Witness for C10 at a concrete fallen ball with lives to spare. -/
theorem C10_witness :
    oobPhase true sampleOut =
      { mode := Mode.playing, score := 7, lives := 2,
        paddle := ⟨150, 600, 60, 10, 150⟩, ball := ⟨180, 593, 180, -260, 6⟩,
        bricks := [⟨10, 80, 30, 20, true⟩], input := ⟨false, 0, 0⟩ } := by
  have h := C10_theorem true sampleOut
    (by norm_num [ballOut, sampleOut, GAME_H]) (by decide)
  rw [h.1]
  norm_num [sampleOut, resetBallOnPaddle, BALL_SPEED_X, BALL_SPEED_Y]

lemma oobPhase_lives_out {dir : Bool} {s : GameState} (h : ballOut s) :
    (oobPhase dir s).lives = s.lives - 1 := by
  simp only [oobPhase]
  rw [if_pos h]
  split_ifs <;> rfl

lemma brick_hit_not_out {l : List Brick} {b : Ball} (hlow : bricksLow l) (hr : 0 ≤ b.r)
    (hhit : (brickPhase l b).2.2 = true) :
    ¬((brickPhase l b).2.1.y - (brickPhase l b).2.1.r > GAME_H) := by
  obtain ⟨i, hact, hrf, hfirst, hbricks, hball⟩ := brickPhase_hit l b hhit
  obtain ⟨hw0, hh0, hylow⟩ := hlow (l.get i) (l.get_mem i.1 i.2)
  have hov := overlap_of_hit hrf
  have hm := reflect_hit_master b (l.get i).toRect hr hw0 hh0 hov
  have hy : (reflectBallFromRect b (l.get i).toRect).2.y ≤
      (l.get i).y + (l.get i).h + b.r + 1/2 := hm.2.2.1
  have hr2 : (reflectBallFromRect b (l.get i).toRect).2.r = b.r := reflect_r _ _
  rw [hball, hr2]
  intro hgt
  linarith

/-- Claim C4: along any tick sequence lives never increase; a tick
changes `lives` exactly when the ball's top edge has passed the
playfield's bottom edge after that tick's movement and collisions, and
then by exactly one; on reachable playing states a decrement that
reaches zero switches the mode to `lose` without a respawn, and
otherwise the ball is respawned at rest on the paddle with vertical
speed -260 and horizontal speed +180 or -180 according to the random
draw. -/
theorem C4_theorem :
    (∀ (l : List (Bool × ℚ)) (s : GameState), (runTicks l s).lives ≤ s.lives) ∧
    (∀ (dir : Bool) (dt : ℚ) (s : GameState), s.mode ≠ Mode.playing →
      update dir dt s = s) ∧
    (∀ (dir : Bool) (dt : ℚ) (s : GameState), s.mode = Mode.playing →
      (ballOut (collidePhase (integrate dt s)) →
        (update dir dt s).lives = s.lives - 1) ∧
      (¬ballOut (collidePhase (integrate dt s)) →
        (update dir dt s).lives = s.lives)) ∧
    (∀ s : GameState, Reachable s → s.mode = Mode.playing →
      allCleared s.bricks = false ∧ bricksLow s.bricks ∧ s.ball.r = 6) ∧
    (∀ (dir : Bool) (dt : ℚ) (s : GameState), s.mode = Mode.playing →
      allCleared s.bricks = false → bricksLow s.bricks → 0 ≤ s.ball.r →
      ballOut (collidePhase (integrate dt s)) → s.lives - 1 ≤ 0 →
      (update dir dt s).mode = Mode.lose ∧
      (update dir dt s).ball = (collidePhase (integrate dt s)).ball) ∧
    (∀ (dir : Bool) (dt : ℚ) (s : GameState), s.mode = Mode.playing →
      ballOut (collidePhase (integrate dt s)) → 1 ≤ s.lives - 1 →
      (update dir dt s).ball =
        resetBallOnPaddle dir (integrate dt s).paddle
          (collidePhase (integrate dt s)).ball ∧
      (update dir dt s).ball.vy = -260 ∧
      ((update dir dt s).ball.vx = 180 ∨ (update dir dt s).ball.vx = -180) ∧
      (update dir dt s).ball.x =
        (integrate dt s).paddle.x + (integrate dt s).paddle.w / 2 ∧
      (update dir dt s).ball.y =
        (integrate dt s).paddle.y - (collidePhase (integrate dt s)).ball.r - 1) := by
  refine ⟨runTicks_lives_le, ?_, ?_, ?_, ?_, ?_⟩
  · intro dir dt s h
    exact update_not_playing dir dt h
  · intro dir dt s hm
    rw [update_playing dir dt hm]
    constructor
    · intro hob
      rw [winPhase_lives, oobPhase_lives_out hob]
      rfl
    · intro hob
      rw [winPhase_lives, oobPhase_not hob]
      rfl
  · intro s h hm
    obtain ⟨-, -, -, -, -, -, hr, hplay, -, -⟩ := reach_inv h
    exact ⟨(hplay hm).2.2.1, (hplay hm).2.2.2, hr⟩
  · intro dir dt s hm hcl hlow hr hob hlv
    rw [update_playing dir dt hm]
    have hb2r : (paddlePhase (integrate dt s).paddle
        (wallPhase (integrate dt s).ball)).r = s.ball.r := by
      rw [paddlePhase_r, wallPhase_r]
      rfl
    have hnohit : (brickPhase (integrate dt s).bricks
        (paddlePhase (integrate dt s).paddle (wallPhase (integrate dt s).ball))).2.2 = false := by
      by_contra hcon
      have hcon' : (brickPhase (integrate dt s).bricks
          (paddlePhase (integrate dt s).paddle (wallPhase (integrate dt s).ball))).2.2 = true := by
        revert hcon
        cases (brickPhase (integrate dt s).bricks
          (paddlePhase (integrate dt s).paddle (wallPhase (integrate dt s).ball))).2.2 <;> simp
      have hlow' : bricksLow (integrate dt s).bricks := hlow
      have hrr : (0:ℚ) ≤ (paddlePhase (integrate dt s).paddle
          (wallPhase (integrate dt s).ball)).r := by rw [hb2r]; exact hr
      exact brick_hit_not_out hlow' hrr hcon' hob
    have hbricks : (collidePhase (integrate dt s)).bricks = (integrate dt s).bricks :=
      (brickPhase_no_hit _ _ hnohit).1
    have hclm : allCleared (oobPhase dir (collidePhase (integrate dt s))).bricks = false := by
      rw [oobPhase_bricks, hbricks]
      exact hcl
    rw [winPhase_neg hclm]
    have hlv' : (collidePhase (integrate dt s)).lives - 1 ≤ 0 := hlv
    rw [oobPhase_lose hob hlv']
    exact ⟨rfl, rfl⟩
  · intro dir dt s hm hob hlv
    rw [update_playing dir dt hm, winPhase_ball]
    have hlv' : ¬((collidePhase (integrate dt s)).lives - 1 ≤ 0) := by
      show ¬(s.lives - 1 ≤ 0)
      omega
    rw [@oobPhase_reset dir _ hob hlv']
    refine ⟨rfl, rfl, ?_, rfl, rfl⟩
    cases dir
    · right
      show BALL_SPEED_X * (-1 : ℚ) = -180
      norm_num [BALL_SPEED_X]
    · left
      show BALL_SPEED_X * (1 : ℚ) = 180
      norm_num [BALL_SPEED_X]

/-- Witness for C4: the lives bookkeeping, the lose transition on the
last life, and the respawn, all at concrete fallen-ball states. -/
theorem C4_witness :
    ((ballOut (collidePhase (integrate 0 sampleOut)) →
        (update true 0 sampleOut).lives = sampleOut.lives - 1) ∧
      (¬ballOut (collidePhase (integrate 0 sampleOut)) →
        (update true 0 sampleOut).lives = sampleOut.lives)) ∧
    (allCleared (pointerdown true 0 initialState).bricks = false ∧
      bricksLow (pointerdown true 0 initialState).bricks ∧
      (pointerdown true 0 initialState).ball.r = 6) ∧
    ((update true 0 sampleOutLast).mode = Mode.lose ∧
      (update true 0 sampleOutLast).ball =
        (collidePhase (integrate 0 sampleOutLast)).ball) ∧
    ((update true 0 sampleOut).ball =
        resetBallOnPaddle true (integrate 0 sampleOut).paddle
          (collidePhase (integrate 0 sampleOut)).ball ∧
      (update true 0 sampleOut).ball.vy = -260 ∧
      ((update true 0 sampleOut).ball.vx = 180 ∨
        (update true 0 sampleOut).ball.vx = -180) ∧
      (update true 0 sampleOut).ball.x =
        (integrate 0 sampleOut).paddle.x + (integrate 0 sampleOut).paddle.w / 2 ∧
      (update true 0 sampleOut).ball.y =
        (integrate 0 sampleOut).paddle.y -
          (collidePhase (integrate 0 sampleOut)).ball.r - 1) := by
  refine ⟨C4_theorem.2.2.1 true 0 sampleOut rfl,
    C4_theorem.2.2.2.1 (pointerdown true 0 initialState)
      (Reachable.pdown initialState true 0 Reachable.init) (by decide),
    C4_theorem.2.2.2.2.1 true 0 sampleOutLast rfl (by decide) ?_ (by decide) ?_ (by decide),
    C4_theorem.2.2.2.2.2 true 0 sampleOut rfl ?_ (by decide)⟩
  · intro br hbr
    simp only [sampleOutLast, sampleOut, List.mem_singleton] at hbr
    subst hbr
    norm_num [GAME_H]
  · norm_num [ballOut, collidePhase, integrate, wallPhase, paddlePhase, brickPhase,
      reflectBallFromRect, clamp, min_def, max_def, abs_of_nonneg, abs_of_nonpos,
      sampleOutLast, sampleOut, GAME_W, GAME_H, PADDLE_SMOOTHING,
      Paddle.toRect, Brick.toRect]
  · norm_num [ballOut, collidePhase, integrate, wallPhase, paddlePhase, brickPhase,
      reflectBallFromRect, clamp, min_def, max_def, abs_of_nonneg, abs_of_nonpos,
      sampleOut, GAME_W, GAME_H, PADDLE_SMOOTHING, Paddle.toRect, Brick.toRect]

/-- Claim C5: the brick loop scans the list in its stored order — the
row-major order `initGame` generates (element `8*row + col` of the grid
is the brick of that row and column) — deactivates exactly the first
active brick reported hit, awards exactly 10 points for it, and stops;
a playing tick adds exactly 10 to the score when its brick phase
reports a hit and leaves the score unchanged otherwise, so over any
tick sequence the score is non-decreasing and grows by a multiple of 10
bounded by 10 per tick. -/
theorem C5_theorem :
    (∀ (l : List Brick) (b : Ball), (brickPhase l b).2.2 = false →
      (brickPhase l b).1 = l ∧ (brickPhase l b).2.1 = b ∧
      ∀ br ∈ l, ¬(br.active = true ∧ (reflectBallFromRect b br.toRect).1 = true)) ∧
    (∀ (l : List Brick) (b : Ball), (brickPhase l b).2.2 = true →
      ∃ i : Fin l.length,
        (l.get i).active = true ∧
        (reflectBallFromRect b (l.get i).toRect).1 = true ∧
        (∀ j : Fin l.length, (j : ℕ) < (i : ℕ) →
          ¬((l.get j).active = true ∧ (reflectBallFromRect b (l.get j).toRect).1 = true)) ∧
        (brickPhase l b).1 = l.set i { l.get i with active := false } ∧
        (brickPhase l b).2.1 = (reflectBallFromRect b (l.get i).toRect).2) ∧
    (∀ (dir : Bool) (dt : ℚ) (s : GameState), s.mode = Mode.playing →
      ((brickPhase (integrate dt s).bricks
          (paddlePhase (integrate dt s).paddle (wallPhase (integrate dt s).ball))).2.2 = true →
        (update dir dt s).score = s.score + 10) ∧
      ((brickPhase (integrate dt s).bricks
          (paddlePhase (integrate dt s).paddle (wallPhase (integrate dt s).ball))).2.2 = false →
        (update dir dt s).score = s.score)) ∧
    (∀ (dir : Bool) (dt : ℚ) (s : GameState),
      (update dir dt s).score = s.score ∨ (update dir dt s).score = s.score + 10) ∧
    (∀ (l : List (Bool × ℚ)) (s : GameState),
      s.score ≤ (runTicks l s).score ∧
      ∃ k ≤ l.length, (runTicks l s).score = s.score + 10 * k) ∧
    (∀ (row col : ℕ), row < 5 → col < 8 →
      initBricks.get? (8 * row + col) =
        some { x := 10 + (col : ℚ) * (brickW + 4), y := 80 + (row : ℚ) * (20 + 4),
               w := brickW, h := 20, active := true }) := by
  refine ⟨brickPhase_no_hit, brickPhase_hit, ?_, update_score_step, ?_, ?_⟩
  · intro dir dt s hm
    rw [update_playing dir dt hm, winPhase_score, oobPhase_score, collidePhase_score]
    constructor
    · intro h
      rw [if_pos h]
      rfl
    · intro h
      rw [if_neg (by simp [h])]
      rfl
  · intro l s
    obtain ⟨k, hk, hs⟩ := runTicks_score l s
    exact ⟨by rw [hs]; exact Nat.le_add_right _ _, k, hk, hs⟩
  · intro row col h5 h8
    interval_cases row <;> interval_cases col <;> rfl

/-- Witness for C5: a concrete miss, a concrete first-brick hit, one
tick that destroys a brick and gains exactly 10 points, one tick that
hits nothing and keeps its score, a concrete tick's score step, and one
concrete grid position. -/
theorem C5_witness :
    ((brickPhase [⟨0, 0, 10, 20, true⟩] ⟨100, 100, 3, 4, 6⟩).1 = [⟨0, 0, 10, 20, true⟩] ∧
      (brickPhase [⟨0, 0, 10, 20, true⟩] ⟨100, 100, 3, 4, 6⟩).2.1 = ⟨100, 100, 3, 4, 6⟩ ∧
      ∀ br ∈ [(⟨0, 0, 10, 20, true⟩ : Brick)],
        ¬(br.active = true ∧
          (reflectBallFromRect ⟨100, 100, 3, 4, 6⟩ br.toRect).1 = true)) ∧
    (∃ i : Fin ([(⟨0, 0, 10, 20, true⟩ : Brick)].length),
      (([(⟨0, 0, 10, 20, true⟩ : Brick)]).get i).active = true ∧
      (reflectBallFromRect ⟨12, 5, 3, 4, 6⟩
        (([(⟨0, 0, 10, 20, true⟩ : Brick)]).get i).toRect).1 = true ∧
      (∀ j : Fin ([(⟨0, 0, 10, 20, true⟩ : Brick)].length), (j : ℕ) < (i : ℕ) →
        ¬((([(⟨0, 0, 10, 20, true⟩ : Brick)]).get j).active = true ∧
          (reflectBallFromRect ⟨12, 5, 3, 4, 6⟩
            (([(⟨0, 0, 10, 20, true⟩ : Brick)]).get j).toRect).1 = true)) ∧
      (brickPhase [⟨0, 0, 10, 20, true⟩] ⟨12, 5, 3, 4, 6⟩).1 =
        ([(⟨0, 0, 10, 20, true⟩ : Brick)]).set i
          { ([(⟨0, 0, 10, 20, true⟩ : Brick)]).get i with active := false } ∧
      (brickPhase [⟨0, 0, 10, 20, true⟩] ⟨12, 5, 3, 4, 6⟩).2.1 =
        (reflectBallFromRect ⟨12, 5, 3, 4, 6⟩
          (([(⟨0, 0, 10, 20, true⟩ : Brick)]).get i).toRect).2) ∧
    (update true 0 sampleHit).score = sampleHit.score + 10 ∧
    (update true 0 sampleOut).score = sampleOut.score ∧
    ((update true 0 sampleOut).score = sampleOut.score ∨
      (update true 0 sampleOut).score = sampleOut.score + 10) ∧
    initBricks.get? (8 * 2 + 3) =
      some { x := 10 + (3 : ℚ) * (brickW + 4), y := 80 + (2 : ℚ) * (20 + 4),
             w := brickW, h := 20, active := true } := by
  refine ⟨C5_theorem.1 [⟨0, 0, 10, 20, true⟩] ⟨100, 100, 3, 4, 6⟩ ?_,
    C5_theorem.2.1 [⟨0, 0, 10, 20, true⟩] ⟨12, 5, 3, 4, 6⟩ ?_,
    (C5_theorem.2.2.1 true 0 sampleHit rfl).1 ?_,
    (C5_theorem.2.2.1 true 0 sampleOut rfl).2 ?_,
    C5_theorem.2.2.2.1 true 0 sampleOut,
    C5_theorem.2.2.2.2.2 2 3 (by decide) (by decide)⟩
  · norm_num [brickPhase, reflectBallFromRect, clamp, min_def, max_def,
      abs_of_nonneg, abs_of_nonpos, Brick.toRect]
  · norm_num [brickPhase, reflectBallFromRect, clamp, min_def, max_def,
      abs_of_nonneg, abs_of_nonpos, Brick.toRect]
  · norm_num [integrate, wallPhase, paddlePhase, brickPhase, reflectBallFromRect,
      clamp, min_def, max_def, abs_of_nonneg, abs_of_nonpos, sampleHit,
      GAME_W, GAME_H, PADDLE_SMOOTHING, Paddle.toRect, Brick.toRect]
  · norm_num [integrate, wallPhase, paddlePhase, brickPhase, reflectBallFromRect,
      clamp, min_def, max_def, abs_of_nonneg, abs_of_nonpos, sampleOut,
      GAME_W, GAME_H, PADDLE_SMOOTHING, Paddle.toRect, Brick.toRect]

/-- Claim C6: whenever the generic reflection reports a paddle hit, the
tick forces `vy` to `-|vy|` (upward) and overrides `vx` with the
position-based angle control `clamp((x - paddle.x)/paddle.w - 1/2)·420`;
in Scenario A — ball (180, 600), velocity (0, 260), paddle x 150..210,
y 600..610 — one tick of 1/30 s triggers the collision, makes `vy`
negative (-260) and sets `vx` to 0 (centre hit). -/
theorem C6_theorem :
    (∀ (p : Paddle) (b : Ball), (reflectBallFromRect b p.toRect).1 = true →
      paddlePhase p b =
        { (reflectBallFromRect b p.toRect).2 with
          vy := -|(reflectBallFromRect b p.toRect).2.vy|
          vx := clamp (((reflectBallFromRect b p.toRect).2.x - p.x) / p.w - 1/2)
            (-(1/2)) (1/2) * 420 }) ∧
    ((reflectBallFromRect (wallPhase (integrate (1/30) scenarioA).ball)
        scenarioA.paddle.toRect).1 = true ∧
      (update true (1/30) scenarioA).ball.vy = -260 ∧
      (update true (1/30) scenarioA).ball.vy < 0 ∧
      (update true (1/30) scenarioA).ball.vx = 0) := by
  constructor
  · intro p b h
    simp only [paddlePhase]
    rw [if_pos h]
  · refine ⟨?_, ?_, ?_, ?_⟩ <;>
      norm_num [update, integrate, checkCollisions, collidePhase, wallPhase,
        paddlePhase, brickPhase, reflectBallFromRect, oobPhase, winPhase, ballOut,
        allCleared, clamp, GAME_W, GAME_H, PADDLE_SMOOTHING, Paddle.toRect,
        Brick.toRect, resetBallOnPaddle, BALL_SPEED_X, BALL_SPEED_Y, min_def,
        max_def, abs_of_nonneg, abs_of_nonpos, List.all_cons, List.all_nil,
        scenarioA]

/-- Witness for the universally quantified half of C6 at the Scenario A
paddle and the ball as moved by one 1/30 s integration step. -/
theorem C6_witness :
    paddlePhase ⟨150, 600, 60, 10, 150⟩ ⟨180, 1826/3, 0, 260, 6⟩ =
      { (reflectBallFromRect ⟨180, 1826/3, 0, 260, 6⟩
          (Paddle.toRect ⟨150, 600, 60, 10, 150⟩)).2 with
        vy := -|(reflectBallFromRect ⟨180, 1826/3, 0, 260, 6⟩
          (Paddle.toRect ⟨150, 600, 60, 10, 150⟩)).2.vy|
        vx := clamp (((reflectBallFromRect ⟨180, 1826/3, 0, 260, 6⟩
            (Paddle.toRect ⟨150, 600, 60, 10, 150⟩)).2.x - 150) / 60 - 1/2)
          (-(1/2)) (1/2) * 420 } :=
  C6_theorem.1 ⟨150, 600, 60, 10, 150⟩ ⟨180, 1826/3, 0, 260, 6⟩
    (by norm_num [reflectBallFromRect, clamp, min_def, max_def,
      abs_of_nonneg, abs_of_nonpos, Paddle.toRect])
